import Mathlib

/-!
Verification development for the osdu-mcp-server request-context core:
the request-scoped context store (`shared/request_context.py`), the HTTP
header-extraction middleware (`http_app.py`, class TokenExtractionMiddleware)
and the auth precedence logic.

Strings model Python `str` values decoded from latin-1 header bytes: one
Lean `Char` per Python character.  `Char.toLower` lowers only ASCII letters,
which agrees with the code: the configured header names are ASCII constants,
and the Bearer-prefix check compares against the ASCII literal "bearer ",
on which Python's `str.lower` and ASCII lowering coincide for latin-1 text.
-/

namespace OsduMcp

/-- ASCII lowering of a string, one character at a time
(models `str.lower()` applied to the ASCII header names, and the
byte-lowering the ASGI transport applies to incoming header names). -/
def strToLower (s : String) : String :=
  ⟨s.data.map Char.toLower⟩

/-- Lookup in a Python `dict` built from a key/value pair list by
`dict(pairs)`: a later entry for the same key overwrites an earlier one. -/
def dictGet : List (String × String) → String → Option String
  | [], _ => none
  | (k', v) :: rest, k =>
    match dictGet rest k with
    | some v' => some v'
    | none => if k' = k then some v else none

/-- Python dict assignment `d[key] = value`: with `dictGet` preferring
later entries, appending the new pair realises overwrite semantics. -/
def dictInsert (d : List (String × String)) (k v : String) : List (String × String) :=
  d ++ [(k, v)]

/-- The per-request context held by the four ContextVars of
`shared/request_context.py`, viewed from a single execution context.
(The cross-context aliasing of the metadata ContextVar's shared default
dict is modelled separately below by `MetaHeapState`.) -/
structure RequestContext where
  user_token : Option String
  server_url : Option String
  data_partition : Option String
  metadata : List (String × String)
deriving DecidableEq, Repr

/-- All four fields at their unset defaults (None / None / None / empty dict). -/
def emptyContext : RequestContext := ⟨none, none, none, []⟩

/-- Source `set_request_user_token(token)`. -/
def set_request_user_token (ctx : RequestContext) (token : Option String) : RequestContext :=
  { ctx with user_token := token }

/-- Source `get_request_user_token()`. -/
def get_request_user_token (ctx : RequestContext) : Option String :=
  ctx.user_token

/-- Source `clear_request_user_token()`: sets the ContextVar back to None. -/
def clear_request_user_token (ctx : RequestContext) : RequestContext :=
  { ctx with user_token := none }

/-- Source `set_request_server_url(url)`. -/
def set_request_server_url (ctx : RequestContext) (url : Option String) : RequestContext :=
  { ctx with server_url := url }

/-- Source `get_request_server_url()`. -/
def get_request_server_url (ctx : RequestContext) : Option String :=
  ctx.server_url

/-- Source `clear_request_server_url()`. -/
def clear_request_server_url (ctx : RequestContext) : RequestContext :=
  { ctx with server_url := none }

/-- Source `set_request_data_partition(partition)`. -/
def set_request_data_partition (ctx : RequestContext) (partition : Option String) : RequestContext :=
  { ctx with data_partition := partition }

/-- Source `get_request_data_partition()`. -/
def get_request_data_partition (ctx : RequestContext) : Option String :=
  ctx.data_partition

/-- Source `clear_request_data_partition()`. -/
def clear_request_data_partition (ctx : RequestContext) : RequestContext :=
  { ctx with data_partition := none }

/-- Source `set_request_metadata(key, value)`, single-context view:
`current[key] = value` on the current dict. -/
def set_request_metadata (ctx : RequestContext) (k v : String) : RequestContext :=
  { ctx with metadata := dictInsert ctx.metadata k v }

/-- Source `get_request_metadata(key, default=None)`: `current.get(key, default)`.
Metadata values are strings here; an unset default is `none`. -/
def get_request_metadata (ctx : RequestContext) (k : String) (default : Option String) : Option String :=
  match dictGet ctx.metadata k with
  | some v => some v
  | none => default

/-- Source `clear_request_metadata()`: binds a fresh empty dict. -/
def clear_request_metadata (ctx : RequestContext) : RequestContext :=
  { ctx with metadata := [] }

/-- Header name `USER_TOKEN_HEADER = "osdu_mcp_user_token"`. -/
def USER_TOKEN_HEADER : String := "osdu_mcp_user_token"

/-- Alternative token header names, in their configured order. -/
def ALT_TOKEN_HEADERS : List String := ["osdu-mcp-user-token", "x-osdu-mcp-user-token"]

/-- Header name `SERVER_URL_HEADER = "osdu_mcp_server_url"`. -/
def SERVER_URL_HEADER : String := "osdu_mcp_server_url"

/-- Alternative server-URL header names, in their configured order. -/
def ALT_SERVER_URL_HEADERS : List String := ["osdu-mcp-server-url", "x-osdu-mcp-server-url"]

/-- Header name `DATA_PARTITION_HEADER = "osdu_mcp_data_partition"`. -/
def DATA_PARTITION_HEADER : String := "osdu_mcp_data_partition"

/-- Alternative data-partition header names, in their configured order. -/
def ALT_DATA_PARTITION_HEADERS : List String := ["osdu-mcp-data-partition", "x-osdu-mcp-data-partition"]

/-- Source `TokenExtractionMiddleware._extract_header(headers, header_names)`:
try each configured name in order, lowering it (the code lowers the name and
encodes to latin-1; scope header names are already lowercase bytes), and
return the dict value of the first name present. -/
def extractHeader (headers : List (String × String)) : List String → Option String
  | [] => none
  | name :: rest =>
    match dictGet headers (strToLower name) with
    | some v => some v
    | none => extractHeader headers rest

/-- Token section of `TokenExtractionMiddleware.__call__`: if a token header
is found and truthy (non-empty), strip a case-insensitive "Bearer " prefix
(`token.lower().startswith("bearer ")` then `token[7:]`), store the token and
record metadata token_source = http_header. -/
def processToken (headers : List (String × String)) (ctx : RequestContext) : RequestContext :=
  match extractHeader headers ([USER_TOKEN_HEADER] ++ ALT_TOKEN_HEADERS) with
  | none => ctx
  | some token =>
    if token = "" then ctx
    else
      let token :=
        if (token.data.map Char.toLower).take 7 = "bearer ".data
        then String.mk (token.data.drop 7)
        else token
      set_request_metadata (set_request_user_token ctx (some token)) "token_source" "http_header"

/-- Python `url.rstrip("/")`: remove all trailing slash characters. -/
def rstripSlash (s : String) : String :=
  ⟨(s.data.reverse.dropWhile (fun c => c == '/')).reverse⟩

/-- Server-URL section of `TokenExtractionMiddleware.__call__`: if a
server-URL header is found and truthy, strip trailing slashes, store it and
record metadata server_url_source = http_header. -/
def processServerUrl (headers : List (String × String)) (ctx : RequestContext) : RequestContext :=
  match extractHeader headers ([SERVER_URL_HEADER] ++ ALT_SERVER_URL_HEADERS) with
  | none => ctx
  | some url =>
    if url = "" then ctx
    else
      set_request_metadata (set_request_server_url ctx (some (rstripSlash url))) "server_url_source" "http_header"

/-- Data-partition section of `TokenExtractionMiddleware.__call__`: if a
data-partition header is found and truthy, store it verbatim and record
metadata data_partition_source = http_header. -/
def processDataPartition (headers : List (String × String)) (ctx : RequestContext) : RequestContext :=
  match extractHeader headers ([DATA_PARTITION_HEADER] ++ ALT_DATA_PARTITION_HEADERS) with
  | none => ctx
  | some partition =>
    if partition = "" then ctx
    else
      set_request_metadata (set_request_data_partition ctx (some partition)) "data_partition_source" "http_header"

/-- The extraction phase of `TokenExtractionMiddleware.__call__`, run on the
ASGI scope headers in the code's order: token, then server URL, then
data partition. -/
def processScope (headers : List (String × String)) (ctx : RequestContext) : RequestContext :=
  processDataPartition headers (processServerUrl headers (processToken headers ctx))

/-- The ASGI transport delivers header names as lowercase bytes; this maps a
client-side header list (names in arbitrary letter case) to the scope view
seen by the middleware. -/
def asgiScope (headers : List (String × String)) : List (String × String) :=
  headers.map (fun p => (strToLower p.1, p.2))

/-- The finally block of `TokenExtractionMiddleware.__call__`: clear all four
context fields. -/
def clearAllContext (ctx : RequestContext) : RequestContext :=
  clear_request_metadata (clear_request_data_partition (clear_request_server_url (clear_request_user_token ctx)))

/-- Whole-request behaviour of `TokenExtractionMiddleware.__call__`.
Non-http/websocket scopes bypass extraction and cleanup; otherwise the
headers are extracted into the context, the downstream app runs (it may read
or modify the context and return normally or raise, modelled by Except), and
the finally block clears the context before the outcome propagates unchanged. -/
def middlewareCall (scopeType : String) (headers : List (String × String))
    (ctx : RequestContext)
    (app : RequestContext → RequestContext × Except String Unit) :
    RequestContext × Except String Unit :=
  if scopeType = "http" ∨ scopeType = "websocket" then
    let ctx1 := processScope headers ctx
    let result := app ctx1
    (clearAllContext result.1, result.2)
  else
    app ctx

/-- Modelled from the spec: the Auth Resolver operation
`AuthHandler.get_access_token` lives in `shared/auth_handler.py`, which is
not among the provided sources (only its tests are).  Spec section 4.3: if
the Request Context Store currently holds a non-unset user_token it is
returned verbatim and the static/managed-identity path is not invoked;
otherwise the statically configured token/credential is used; with neither,
the resolver fails with AuthenticationUnavailable.  The Bool in the result
records whether the static/managed-identity credential path was invoked. -/
def get_access_token (ctx : RequestContext) (staticCred : Option String) :
    Except String (String × Bool) :=
  match get_request_user_token ctx with
  | some t => Except.ok (t, false)
  | none =>
    match staticCred with
    | some s => Except.ok (s, true)
    | none => Except.error "AuthenticationUnavailable"

/-! ## Cross-context model of the metadata ContextVar

`_request_metadata: ContextVar[dict] = ContextVar("request_metadata", default={})`
creates ONE default dict object at module import.  `ContextVar.get()` in a
context with no binding returns that same object; `set_request_metadata`
mutates the returned dict in place before calling `.set`.  To capture this
object identity across two execution contexts (A and B), dicts live in a
heap of dict objects; address 0 is the shared default dict, and each
context's ContextVar binding is an optional address (none = unset, so
`.get()` yields address 0). -/

/-- Heap of metadata dict objects plus the per-context ContextVar bindings
of two execution contexts A and B. -/
structure MetaHeapState where
  heap : List (List (String × String))
  bindA : Option Nat
  bindB : Option Nat
deriving DecidableEq, Repr

/-- Module-import state: one dict in the heap (the empty default dict at
address 0), neither context has a binding. -/
def initMeta : MetaHeapState := ⟨[[]], none, none⟩

/-- The dict address `ContextVar.get()` yields for a binding: the bound
address, or the default object's address 0 when unset. -/
def addrOf (b : Option Nat) : Nat := b.getD 0

/-- The ContextVar binding of context A or B. -/
def bindOf (s : MetaHeapState) (inA : Bool) : Option Nat :=
  if inA then s.bindA else s.bindB

/-- Dereference a heap address. -/
def heapGet (s : MetaHeapState) (a : Nat) : List (String × String) :=
  s.heap.getD a []

/-- Source `set_request_metadata(key, value)` executed in context A or B:
`current = _request_metadata.get()` (the default object when unset),
`current[key] = value` (in-place mutation of the heap object), then
`_request_metadata.set(current)` (bind the same address in this context). -/
def set_request_metadata_in (s : MetaHeapState) (inA : Bool) (k v : String) : MetaHeapState :=
  let a := addrOf (bindOf s inA)
  let s' := { s with heap := s.heap.set a (dictInsert (heapGet s a) k v) }
  if inA then { s' with bindA := some a } else { s' with bindB := some a }

/-- Source `get_request_metadata(key, default)` executed in context A or B:
`_request_metadata.get().get(key, default)`. -/
def get_request_metadata_in (s : MetaHeapState) (inA : Bool) (k : String)
    (default : Option String) : Option String :=
  match dictGet (heapGet s (addrOf (bindOf s inA))) k with
  | some v => some v
  | none => default

/-- Source `clear_request_metadata()` executed in context A or B:
`_request_metadata.set({})` allocates a fresh empty dict object and binds it. -/
def clear_request_metadata_in (s : MetaHeapState) (inA : Bool) : MetaHeapState :=
  let a := s.heap.length
  let s' := { s with heap := s.heap ++ [[]] }
  if inA then { s' with bindA := some a } else { s' with bindB := some a }

/-! ## Helper lemmas -/

theorem dictGet_append_single_ne {d : List (String × String)} {k k' v' : String}
    (h : k' ≠ k) : dictGet (d ++ [(k', v')]) k = dictGet d k := by
  induction d with
  | nil => simp [dictGet, h]
  | cons p rest ih =>
    obtain ⟨pk, pv⟩ := p
    simp [dictGet, ih]

theorem dictGet_append_single_eq {d : List (String × String)} {k v' : String} :
    dictGet (d ++ [(k, v')]) k = some v' := by
  induction d with
  | nil => simp [dictGet]
  | cons p rest ih =>
    obtain ⟨pk, pv⟩ := p
    simp [dictGet, ih]

theorem processToken_server_url (headers : List (String × String)) (ctx : RequestContext) :
    (processToken headers ctx).server_url = ctx.server_url := by
  unfold processToken
  cases extractHeader headers ([USER_TOKEN_HEADER] ++ ALT_TOKEN_HEADERS) with
  | none => rfl
  | some t =>
    by_cases h : t = "" <;>
      simp [h, set_request_metadata, set_request_user_token]

theorem processToken_data_partition (headers : List (String × String)) (ctx : RequestContext) :
    (processToken headers ctx).data_partition = ctx.data_partition := by
  unfold processToken
  cases extractHeader headers ([USER_TOKEN_HEADER] ++ ALT_TOKEN_HEADERS) with
  | none => rfl
  | some t =>
    by_cases h : t = "" <;>
      simp [h, set_request_metadata, set_request_user_token]

theorem processServerUrl_user_token (headers : List (String × String)) (ctx : RequestContext) :
    (processServerUrl headers ctx).user_token = ctx.user_token := by
  unfold processServerUrl
  cases extractHeader headers ([SERVER_URL_HEADER] ++ ALT_SERVER_URL_HEADERS) with
  | none => rfl
  | some u =>
    by_cases h : u = "" <;>
      simp [h, set_request_metadata, set_request_server_url]

theorem processServerUrl_data_partition (headers : List (String × String)) (ctx : RequestContext) :
    (processServerUrl headers ctx).data_partition = ctx.data_partition := by
  unfold processServerUrl
  cases extractHeader headers ([SERVER_URL_HEADER] ++ ALT_SERVER_URL_HEADERS) with
  | none => rfl
  | some u =>
    by_cases h : u = "" <;>
      simp [h, set_request_metadata, set_request_server_url]

theorem processDataPartition_user_token (headers : List (String × String)) (ctx : RequestContext) :
    (processDataPartition headers ctx).user_token = ctx.user_token := by
  unfold processDataPartition
  cases extractHeader headers ([DATA_PARTITION_HEADER] ++ ALT_DATA_PARTITION_HEADERS) with
  | none => rfl
  | some p =>
    by_cases h : p = "" <;>
      simp [h, set_request_metadata, set_request_data_partition]

theorem processDataPartition_server_url (headers : List (String × String)) (ctx : RequestContext) :
    (processDataPartition headers ctx).server_url = ctx.server_url := by
  unfold processDataPartition
  cases extractHeader headers ([DATA_PARTITION_HEADER] ++ ALT_DATA_PARTITION_HEADERS) with
  | none => rfl
  | some p =>
    by_cases h : p = "" <;>
      simp [h, set_request_metadata, set_request_data_partition]

theorem processToken_metadata_other (headers : List (String × String)) (ctx : RequestContext)
    (k : String) (hk : k ≠ "token_source") :
    dictGet (processToken headers ctx).metadata k = dictGet ctx.metadata k := by
  unfold processToken
  cases extractHeader headers ([USER_TOKEN_HEADER] ++ ALT_TOKEN_HEADERS) with
  | none => rfl
  | some t =>
    by_cases h : t = ""
    · simp [h]
    · simp only [h, ite_false, set_request_metadata, set_request_user_token, dictInsert]
      exact dictGet_append_single_ne (Ne.symm hk)

theorem processServerUrl_metadata_other (headers : List (String × String)) (ctx : RequestContext)
    (k : String) (hk : k ≠ "server_url_source") :
    dictGet (processServerUrl headers ctx).metadata k = dictGet ctx.metadata k := by
  unfold processServerUrl
  cases extractHeader headers ([SERVER_URL_HEADER] ++ ALT_SERVER_URL_HEADERS) with
  | none => rfl
  | some u =>
    by_cases h : u = ""
    · simp [h]
    · simp only [h, ite_false, set_request_metadata, set_request_server_url, dictInsert]
      exact dictGet_append_single_ne (Ne.symm hk)

theorem processDataPartition_metadata_other (headers : List (String × String)) (ctx : RequestContext)
    (k : String) (hk : k ≠ "data_partition_source") :
    dictGet (processDataPartition headers ctx).metadata k = dictGet ctx.metadata k := by
  unfold processDataPartition
  cases extractHeader headers ([DATA_PARTITION_HEADER] ++ ALT_DATA_PARTITION_HEADERS) with
  | none => rfl
  | some p =>
    by_cases h : p = ""
    · simp [h]
    · simp only [h, ite_false, set_request_metadata, set_request_data_partition, dictInsert]
      exact dictGet_append_single_ne (Ne.symm hk)

theorem lower_tok_canonical : strToLower "osdu_mcp_user_token" = "osdu_mcp_user_token" := by decide

theorem lower_tok_alt1 : strToLower "osdu-mcp-user-token" = "osdu-mcp-user-token" := by decide

theorem lower_tok_alt2 : strToLower "x-osdu-mcp-user-token" = "x-osdu-mcp-user-token" := by decide

theorem lower_url_canonical : strToLower "osdu_mcp_server_url" = "osdu_mcp_server_url" := by decide

theorem lower_url_alt1 : strToLower "osdu-mcp-server-url" = "osdu-mcp-server-url" := by decide

theorem lower_url_alt2 : strToLower "x-osdu-mcp-server-url" = "x-osdu-mcp-server-url" := by decide

theorem lower_part_canonical : strToLower "osdu_mcp_data_partition" = "osdu_mcp_data_partition" := by decide

theorem lower_part_alt1 : strToLower "osdu-mcp-data-partition" = "osdu-mcp-data-partition" := by decide

theorem lower_part_alt2 : strToLower "x-osdu-mcp-data-partition" = "x-osdu-mcp-data-partition" := by decide

/-! ## Claim theorems -/

/-- C1: for every call to the Auth Resolver's get-access-token operation,
a non-unset stored user_token is returned verbatim with the static path not
invoked; with the token unset (including right after clearing a previously
set token) the statically configured credential is returned instead. -/
theorem auth_request_token_priority_and_fallback (ctx : RequestContext) (cred : Option String) :
    (∀ t, get_request_user_token ctx = some t → get_access_token ctx cred = Except.ok (t, false)) ∧
    (get_request_user_token ctx = none →
      ∀ s, cred = some s → get_access_token ctx cred = Except.ok (s, true)) ∧
    (∀ s, get_access_token (clear_request_user_token ctx) (some s) = Except.ok (s, true)) := by
  refine ⟨?_, ?_, ?_⟩
  · intro t ht
    simp [get_access_token, ht]
  · intro hn s hs
    simp [get_access_token, hn, hs]
  · intro s
    simp [get_access_token, clear_request_user_token, get_request_user_token]

/-- Witness for C1 at concrete inputs: a stored request token wins and the
static path is not invoked; with no stored token, or after a clear, the
static credential is used. -/
theorem auth_request_token_priority_and_fallback_witness :
    get_access_token ⟨some "req-token", none, none, []⟩ (some "static-token") =
      Except.ok ("req-token", false) ∧
    get_access_token emptyContext (some "static-token") = Except.ok ("static-token", true) ∧
    get_access_token (clear_request_user_token ⟨some "req-token", none, none, []⟩)
      (some "static-token") = Except.ok ("static-token", true) :=
  ⟨(auth_request_token_priority_and_fallback ⟨some "req-token", none, none, []⟩
      (some "static-token")).1 "req-token" rfl,
   (auth_request_token_priority_and_fallback emptyContext (some "static-token")).2.1 rfl
      "static-token" rfl,
   (auth_request_token_priority_and_fallback ⟨some "req-token", none, none, []⟩
      (some "static-token")).2.2 "static-token"⟩

/-- C2: for every HTTP (or websocket) request through the middleware,
whether the downstream app finishes normally or raises, the context after
the request has all getters at their unset defaults and every metadata
lookup returns the caller-supplied default, because the clears run in the
finally block. -/
theorem context_cleared_after_request (st : String)
    (hst : st = "http" ∨ st = "websocket")
    (headers : List (String × String)) (ctx : RequestContext)
    (app : RequestContext → RequestContext × Except String Unit) :
    get_request_user_token (middlewareCall st headers ctx app).1 = none ∧
    get_request_server_url (middlewareCall st headers ctx app).1 = none ∧
    get_request_data_partition (middlewareCall st headers ctx app).1 = none ∧
    ∀ k default, get_request_metadata (middlewareCall st headers ctx app).1 k default = default := by
  have hcond : (st = "http" ∨ st = "websocket") = True := by simp [hst]
  refine ⟨?_, ?_, ?_, ?_⟩ <;>
    simp [middlewareCall, hcond, clearAllContext, clear_request_metadata,
      clear_request_data_partition, clear_request_server_url, clear_request_user_token,
      get_request_user_token, get_request_server_url, get_request_data_partition,
      get_request_metadata, dictGet]

/-- Witness for C2: a request whose downstream handler raises an error still
leaves every field cleared; exercised with the token header set and a
failing downstream app. -/
theorem context_cleared_after_request_witness :
    get_request_user_token (middlewareCall "http" [("osdu_mcp_user_token", "tok")]
      emptyContext (fun c => (c, Except.error "boom"))).1 = none ∧
    get_request_server_url (middlewareCall "http" [("osdu_mcp_user_token", "tok")]
      emptyContext (fun c => (c, Except.error "boom"))).1 = none ∧
    get_request_data_partition (middlewareCall "http" [("osdu_mcp_user_token", "tok")]
      emptyContext (fun c => (c, Except.error "boom"))).1 = none ∧
    get_request_metadata (middlewareCall "http" [("osdu_mcp_user_token", "tok")]
      emptyContext (fun c => (c, Except.error "boom"))).1 "token_source" (some "dflt") =
      some "dflt" := by
  have h := context_cleared_after_request "http" (Or.inl rfl)
    [("osdu_mcp_user_token", "tok")] emptyContext (fun c => (c, Except.error "boom"))
  exact ⟨h.1, h.2.1, h.2.2.1, h.2.2.2 "token_source" (some "dflt")⟩

/-- C8 (code bug demonstration): the metadata ContextVar's default is one
shared dict that set_request_metadata mutates in place, so a value set in
context A before any set or clear in either context is visible to context B
— request isolation is violated for metadata. -/
theorem metadata_leak_violates_isolation :
    get_request_metadata_in
      (set_request_metadata_in initMeta true "token_source" "http_header")
      false "token_source" none = some "http_header" := by
  decide

/-- C10: starting from the module-import state where neither context has set
or cleared its metadata, any key written via set_request_metadata in context
A is observable via get_request_metadata in context B, because the write
mutates the single shared default dict in place. -/
theorem metadata_shared_default_leak (k v : String) :
    get_request_metadata_in (set_request_metadata_in initMeta true k v) false k none = some v := by
  simp [get_request_metadata_in, set_request_metadata_in, initMeta, addrOf, bindOf,
    heapGet, dictInsert, dictGet]

/-- C6: when several header name variants of one category are present
simultaneously, the middleware deterministically uses the first matching
name in the configured order — canonical first, then the alternatives in
their listed order — and ignores the rest (orElse characterisation of the
lookup for each of the three categories). -/
theorem header_precedence_order (headers : List (String × String)) :
    (extractHeader headers ([USER_TOKEN_HEADER] ++ ALT_TOKEN_HEADERS) =
      ((dictGet headers USER_TOKEN_HEADER).orElse fun _ =>
        (dictGet headers "osdu-mcp-user-token").orElse fun _ =>
          dictGet headers "x-osdu-mcp-user-token")) ∧
    (extractHeader headers ([SERVER_URL_HEADER] ++ ALT_SERVER_URL_HEADERS) =
      ((dictGet headers SERVER_URL_HEADER).orElse fun _ =>
        (dictGet headers "osdu-mcp-server-url").orElse fun _ =>
          dictGet headers "x-osdu-mcp-server-url")) ∧
    (extractHeader headers ([DATA_PARTITION_HEADER] ++ ALT_DATA_PARTITION_HEADERS) =
      ((dictGet headers DATA_PARTITION_HEADER).orElse fun _ =>
        (dictGet headers "osdu-mcp-data-partition").orElse fun _ =>
          dictGet headers "x-osdu-mcp-data-partition")) := by
  refine ⟨?_, ?_, ?_⟩
  · rcases h1 : dictGet headers "osdu_mcp_user_token" with _ | v1 <;>
    rcases h2 : dictGet headers "osdu-mcp-user-token" with _ | v2 <;>
    rcases h3 : dictGet headers "x-osdu-mcp-user-token" with _ | v3 <;>
    simp [extractHeader, USER_TOKEN_HEADER, ALT_TOKEN_HEADERS,
      lower_tok_canonical, lower_tok_alt1, lower_tok_alt2, h1, h2, h3, Option.orElse]
  · rcases h1 : dictGet headers "osdu_mcp_server_url" with _ | v1 <;>
    rcases h2 : dictGet headers "osdu-mcp-server-url" with _ | v2 <;>
    rcases h3 : dictGet headers "x-osdu-mcp-server-url" with _ | v3 <;>
    simp [extractHeader, SERVER_URL_HEADER, ALT_SERVER_URL_HEADERS,
      lower_url_canonical, lower_url_alt1, lower_url_alt2, h1, h2, h3, Option.orElse]
  · rcases h1 : dictGet headers "osdu_mcp_data_partition" with _ | v1 <;>
    rcases h2 : dictGet headers "osdu-mcp-data-partition" with _ | v2 <;>
    rcases h3 : dictGet headers "x-osdu-mcp-data-partition" with _ | v3 <;>
    simp [extractHeader, DATA_PARTITION_HEADER, ALT_DATA_PARTITION_HEADERS,
      lower_part_canonical, lower_part_alt1, lower_part_alt2, h1, h2, h3, Option.orElse]

/-- C7: the middleware forwards every HTTP request to the downstream app
unconditionally and returns its outcome unchanged; a missing override header
is never an error — the corresponding field simply remains unset. -/
theorem middleware_forwards_unconditionally (headers : List (String × String))
    (ctx : RequestContext)
    (app : RequestContext → RequestContext × Except String Unit) :
    (middlewareCall "http" headers ctx app).2 = (app (processScope headers ctx)).2 ∧
    (extractHeader headers ([USER_TOKEN_HEADER] ++ ALT_TOKEN_HEADERS) = none →
      get_request_user_token (processScope headers emptyContext) = none) ∧
    (extractHeader headers ([SERVER_URL_HEADER] ++ ALT_SERVER_URL_HEADERS) = none →
      get_request_server_url (processScope headers emptyContext) = none) ∧
    (extractHeader headers ([DATA_PARTITION_HEADER] ++ ALT_DATA_PARTITION_HEADERS) = none →
      get_request_data_partition (processScope headers emptyContext) = none) := by
  refine ⟨?_, ?_, ?_, ?_⟩
  · simp [middlewareCall]
  · intro h
    simp only [List.singleton_append] at h
    simp [get_request_user_token, processScope, processDataPartition_user_token,
      processServerUrl_user_token, processToken, h, emptyContext]
  · intro h
    simp only [List.singleton_append] at h
    simp [get_request_server_url, processScope, processDataPartition_server_url,
      processServerUrl, h, processToken_server_url, emptyContext]
  · intro h
    simp only [List.singleton_append] at h
    simp [get_request_data_partition, processScope, processDataPartition, h,
      processServerUrl_data_partition, processToken_data_partition, emptyContext]

/-- Witness for C7 at a concrete input: with no override headers at all the
downstream outcome is returned unchanged and every field stays unset. -/
theorem middleware_forwards_unconditionally_witness :
    (middlewareCall "http" [("accept", "application/json")] emptyContext
      (fun c => (c, Except.ok ()))).2 =
      ((fun (c : RequestContext) => (c, Except.ok ()))
        (processScope [("accept", "application/json")] emptyContext)).2 ∧
    get_request_user_token (processScope [("accept", "application/json")] emptyContext) = none ∧
    get_request_server_url (processScope [("accept", "application/json")] emptyContext) = none ∧
    get_request_data_partition (processScope [("accept", "application/json")] emptyContext) = none := by
  have h := middleware_forwards_unconditionally [("accept", "application/json")]
    emptyContext (fun c => (c, Except.ok ()))
  exact ⟨h.1, h.2.1 (by decide), h.2.2.1 (by decide), h.2.2.2 (by decide)⟩

/-- C9: an override header that is present but carries the empty-string
value is treated as absent — the corresponding context field remains unset
and no source metadata entry is recorded for that category (the code's
truthiness guard skips the whole branch). -/
theorem empty_header_value_treated_as_absent (headers : List (String × String)) :
    (extractHeader headers ([USER_TOKEN_HEADER] ++ ALT_TOKEN_HEADERS) = some "" →
      get_request_user_token (processScope headers emptyContext) = none ∧
      get_request_metadata (processScope headers emptyContext) "token_source" none = none) ∧
    (extractHeader headers ([SERVER_URL_HEADER] ++ ALT_SERVER_URL_HEADERS) = some "" →
      get_request_server_url (processScope headers emptyContext) = none ∧
      get_request_metadata (processScope headers emptyContext) "server_url_source" none = none) ∧
    (extractHeader headers ([DATA_PARTITION_HEADER] ++ ALT_DATA_PARTITION_HEADERS) = some "" →
      get_request_data_partition (processScope headers emptyContext) = none ∧
      get_request_metadata (processScope headers emptyContext) "data_partition_source" none = none) := by
  refine ⟨fun h => ⟨?_, ?_⟩, fun h => ⟨?_, ?_⟩, fun h => ⟨?_, ?_⟩⟩ <;>
    simp only [List.singleton_append] at h
  · simp [get_request_user_token, processScope, processDataPartition_user_token,
      processServerUrl_user_token, processToken, h, emptyContext]
  · have e1 : dictGet (processScope headers emptyContext).metadata "token_source" = none := by
      simp only [processScope]
      rw [processDataPartition_metadata_other _ _ _ (by decide),
        processServerUrl_metadata_other _ _ _ (by decide)]
      simp [processToken, h, emptyContext, dictGet]
    simp [get_request_metadata, e1]
  · simp [get_request_server_url, processScope, processDataPartition_server_url,
      processServerUrl, h, processToken_server_url, emptyContext]
  · have e1 : dictGet (processScope headers emptyContext).metadata "server_url_source" = none := by
      simp only [processScope]
      rw [processDataPartition_metadata_other _ _ _ (by decide)]
      have e2 : processServerUrl headers (processToken headers emptyContext) =
          processToken headers emptyContext := by
        simp [processServerUrl, h]
      rw [e2, processToken_metadata_other _ _ _ (by decide)]
      simp [emptyContext, dictGet]
    simp [get_request_metadata, e1]
  · simp [get_request_data_partition, processScope, processDataPartition, h,
      processServerUrl_data_partition, processToken_data_partition, emptyContext]
  · have e1 : dictGet (processScope headers emptyContext).metadata "data_partition_source" = none := by
      simp only [processScope]
      have e2 : processDataPartition headers
          (processServerUrl headers (processToken headers emptyContext)) =
          processServerUrl headers (processToken headers emptyContext) := by
        simp [processDataPartition, h]
      rw [e2, processServerUrl_metadata_other _ _ _ (by decide),
        processToken_metadata_other _ _ _ (by decide)]
      simp [emptyContext, dictGet]
    simp [get_request_metadata, e1]

/-- Witness for C9: a request carrying all three canonical headers with
empty values leaves every field unset and records no source metadata. -/
theorem empty_header_value_treated_as_absent_witness :
    get_request_user_token (processScope
      [("osdu_mcp_user_token", ""), ("osdu_mcp_server_url", ""), ("osdu_mcp_data_partition", "")]
      emptyContext) = none ∧
    get_request_metadata (processScope
      [("osdu_mcp_user_token", ""), ("osdu_mcp_server_url", ""), ("osdu_mcp_data_partition", "")]
      emptyContext) "token_source" none = none ∧
    get_request_server_url (processScope
      [("osdu_mcp_user_token", ""), ("osdu_mcp_server_url", ""), ("osdu_mcp_data_partition", "")]
      emptyContext) = none ∧
    get_request_metadata (processScope
      [("osdu_mcp_user_token", ""), ("osdu_mcp_server_url", ""), ("osdu_mcp_data_partition", "")]
      emptyContext) "server_url_source" none = none ∧
    get_request_data_partition (processScope
      [("osdu_mcp_user_token", ""), ("osdu_mcp_server_url", ""), ("osdu_mcp_data_partition", "")]
      emptyContext) = none ∧
    get_request_metadata (processScope
      [("osdu_mcp_user_token", ""), ("osdu_mcp_server_url", ""), ("osdu_mcp_data_partition", "")]
      emptyContext) "data_partition_source" none = none := by
  have h := empty_header_value_treated_as_absent
    [("osdu_mcp_user_token", ""), ("osdu_mcp_server_url", ""), ("osdu_mcp_data_partition", "")]
  exact ⟨(h.1 (by decide)).1, (h.1 (by decide)).2, (h.2.1 (by decide)).1,
    (h.2.1 (by decide)).2, (h.2.2 (by decide)).1, (h.2.2 (by decide)).2⟩

/-- C3 counterexample: the empty string is a token header value found by the
middleware (the extraction returns it), it does not start with "Bearer ",
yet the stored user_token is not the value verbatim — the truthiness guard
leaves the field unset. -/
theorem bearer_claim_fails_on_empty_value :
    extractHeader [("osdu_mcp_user_token", "")] ([USER_TOKEN_HEADER] ++ ALT_TOKEN_HEADERS) =
      some "" ∧
    get_request_user_token (processScope [("osdu_mcp_user_token", "")] emptyContext) = none ∧
    get_request_user_token (processScope [("osdu_mcp_user_token", "")] emptyContext) ≠
      some "" := by
  decide

/-- C3 amended: for every NON-EMPTY token header value found by the
middleware, a value starting with the 7-character "Bearer " prefix in any
letter case is stored with exactly those 7 characters removed, and a value
without that prefix is stored verbatim. -/
theorem bearer_stripping_nonempty (headers : List (String × String)) (v : String)
    (hne : v ≠ "")
    (hfound : extractHeader headers ([USER_TOKEN_HEADER] ++ ALT_TOKEN_HEADERS) = some v) :
    ((v.data.map Char.toLower).take 7 = "bearer ".data →
      get_request_user_token (processScope headers emptyContext) =
        some (String.mk (v.data.drop 7))) ∧
    (¬ (v.data.map Char.toLower).take 7 = "bearer ".data →
      get_request_user_token (processScope headers emptyContext) = some v) := by
  simp only [List.singleton_append] at hfound
  constructor <;> intro hb <;>
    simp [get_request_user_token, processScope, processDataPartition_user_token,
      processServerUrl_user_token, processToken, hfound, hne, hb,
      set_request_metadata, set_request_user_token]

/-- Witness for C3 amended: a mixed-case Bearer prefix is stripped; a value
without the prefix is stored verbatim. -/
theorem bearer_stripping_nonempty_witness :
    get_request_user_token (processScope [("osdu_mcp_user_token", "bEaRer abc")] emptyContext) =
      some "abc" ∧
    get_request_user_token (processScope [("osdu_mcp_user_token", "abc")] emptyContext) =
      some "abc" := by
  constructor
  · have h := (bearer_stripping_nonempty [("osdu_mcp_user_token", "bEaRer abc")]
      "bEaRer abc" (by decide) (by decide)).1 (by decide)
    have e : String.mk ("bEaRer abc".data.drop 7) = "abc" := by decide
    rw [e] at h
    exact h
  · exact (bearer_stripping_nonempty [("osdu_mcp_user_token", "abc")]
      "abc" (by decide) (by decide)).2 (by decide)

theorem rstripSlash_no_trailing (v : String) (h : v.data.getLast? ≠ some '/') :
    rstripSlash v = v := by
  obtain ⟨data⟩ := v
  rw [List.getLast?_eq_head?_reverse] at h
  unfold rstripSlash
  cases hrev : data.reverse with
  | nil =>
    have hd : data = [] := by simpa using congrArg List.reverse hrev
    simp [hd]
  | cons a l =>
    have ha : ¬ a = '/' := by
      rw [hrev] at h
      simpa using h
    simp only [hrev, List.dropWhile_cons, beq_iff_eq, ha, ite_false]
    rw [← hrev, List.reverse_reverse]

/-- C4 counterexample: the empty string is a server-URL header value found
by the middleware, it has no trailing slash, yet the stored server_url is
not the value unchanged — the truthiness guard leaves the field unset. -/
theorem trailing_slash_claim_fails_on_empty_value :
    extractHeader [("osdu_mcp_server_url", "")] ([SERVER_URL_HEADER] ++ ALT_SERVER_URL_HEADERS) =
      some "" ∧
    get_request_server_url (processScope [("osdu_mcp_server_url", "")] emptyContext) = none ∧
    get_request_server_url (processScope [("osdu_mcp_server_url", "")] emptyContext) ≠
      some "" := by
  decide

/-- C4 amended: for every NON-EMPTY server-URL header value found by the
middleware, a value ending in one or more slash characters is stored with
all trailing slashes removed, and a value without a trailing slash is
stored unchanged. -/
theorem trailing_slash_stripping_nonempty (headers : List (String × String)) (v : String)
    (hne : v ≠ "")
    (hfound : extractHeader headers ([SERVER_URL_HEADER] ++ ALT_SERVER_URL_HEADERS) = some v) :
    (v.data.getLast? = some '/' →
      get_request_server_url (processScope headers emptyContext) = some (rstripSlash v)) ∧
    (v.data.getLast? ≠ some '/' →
      get_request_server_url (processScope headers emptyContext) = some v) := by
  simp only [List.singleton_append] at hfound
  have hstore : get_request_server_url (processScope headers emptyContext) =
      some (rstripSlash v) := by
    simp [get_request_server_url, processScope, processDataPartition_server_url,
      processServerUrl, hfound, hne, set_request_metadata, set_request_server_url]
  exact ⟨fun _ => hstore, fun hnos => by rw [hstore, rstripSlash_no_trailing v hnos]⟩

/-- Witness for C4 amended: trailing slashes are stripped; a URL without a
trailing slash is stored unchanged. -/
theorem trailing_slash_stripping_nonempty_witness :
    get_request_server_url (processScope [("osdu_mcp_server_url", "https://osdu.example.com///")]
      emptyContext) = some "https://osdu.example.com" ∧
    get_request_server_url (processScope [("osdu_mcp_server_url", "https://osdu.example.com")]
      emptyContext) = some "https://osdu.example.com" := by
  constructor
  · have h := (trailing_slash_stripping_nonempty
      [("osdu_mcp_server_url", "https://osdu.example.com///")]
      "https://osdu.example.com///" (by decide) (by decide)).1 (by decide)
    have e : rstripSlash "https://osdu.example.com///" = "https://osdu.example.com" := by decide
    rw [e] at h
    exact h
  · exact (trailing_slash_stripping_nonempty
      [("osdu_mcp_server_url", "https://osdu.example.com")]
      "https://osdu.example.com" (by decide) (by decide)).2 (by decide)

theorem extractHeader_single_mem (k v : String) (names : List String)
    (h : k ∈ names.map strToLower) : extractHeader [(k, v)] names = some v := by
  induction names with
  | nil => simp at h
  | cons n rest ih =>
    simp only [List.map_cons, List.mem_cons] at h
    by_cases hk : strToLower n = k
    · simp [extractHeader, hk, dictGet]
    · rcases h with h | h
      · exact absurd h.symm hk
      · simp [extractHeader, dictGet, Ne.symm hk, ih h]

/-- C5: for each override category and each supported header name variant in
any letter case, a request carrying only that one header stores the same
context value as a request carrying the canonical header with identical
content (the transport lowercases header names; the middleware lowercases
the configured names). -/
theorem header_variant_equivalence (n v : String) :
    (strToLower n ∈ [USER_TOKEN_HEADER] ++ ALT_TOKEN_HEADERS →
      get_request_user_token (processScope (asgiScope [(n, v)]) emptyContext) =
        get_request_user_token (processScope (asgiScope [(USER_TOKEN_HEADER, v)]) emptyContext)) ∧
    (strToLower n ∈ [SERVER_URL_HEADER] ++ ALT_SERVER_URL_HEADERS →
      get_request_server_url (processScope (asgiScope [(n, v)]) emptyContext) =
        get_request_server_url (processScope (asgiScope [(SERVER_URL_HEADER, v)]) emptyContext)) ∧
    (strToLower n ∈ [DATA_PARTITION_HEADER] ++ ALT_DATA_PARTITION_HEADERS →
      get_request_data_partition (processScope (asgiScope [(n, v)]) emptyContext) =
        get_request_data_partition (processScope (asgiScope [(DATA_PARTITION_HEADER, v)]) emptyContext)) := by
  refine ⟨fun h => ?_, fun h => ?_, fun h => ?_⟩ <;>
  · simp only [USER_TOKEN_HEADER, ALT_TOKEN_HEADERS, SERVER_URL_HEADER, ALT_SERVER_URL_HEADERS,
      DATA_PARTITION_HEADER, ALT_DATA_PARTITION_HEADERS, List.singleton_append,
      List.mem_cons, List.not_mem_nil, or_false] at h
    have hs : asgiScope [(n, v)] = [(strToLower n, v)] := by simp [asgiScope]
    rw [hs]
    rcases h with h | h | h <;> rw [h] <;>
      simp [asgiScope, processScope, processToken, processServerUrl, processDataPartition,
        extractHeader, dictGet, get_request_user_token, get_request_server_url,
        get_request_data_partition, set_request_user_token, set_request_server_url,
        set_request_data_partition, set_request_metadata, emptyContext,
        USER_TOKEN_HEADER, ALT_TOKEN_HEADERS, SERVER_URL_HEADER, ALT_SERVER_URL_HEADERS,
        DATA_PARTITION_HEADER, ALT_DATA_PARTITION_HEADERS,
        lower_tok_canonical, lower_tok_alt1, lower_tok_alt2,
        lower_url_canonical, lower_url_alt1, lower_url_alt2,
        lower_part_canonical, lower_part_alt1, lower_part_alt2]

/-- Witness for C5: an upper-case spelling of the x- token variant stores
the same token as the canonical header; likewise for a server-URL variant
and a data-partition variant. -/
theorem header_variant_equivalence_witness :
    get_request_user_token (processScope (asgiScope [("X-OSDU-MCP-USER-TOKEN", "tok")])
      emptyContext) =
      get_request_user_token (processScope (asgiScope [(USER_TOKEN_HEADER, "tok")])
        emptyContext) ∧
    get_request_server_url (processScope (asgiScope [("Osdu-Mcp-Server-Url", "https://u")])
      emptyContext) =
      get_request_server_url (processScope (asgiScope [(SERVER_URL_HEADER, "https://u")])
        emptyContext) ∧
    get_request_data_partition (processScope (asgiScope [("OSDU_MCP_DATA_PARTITION", "p1")])
      emptyContext) =
      get_request_data_partition (processScope (asgiScope [(DATA_PARTITION_HEADER, "p1")])
        emptyContext) :=
  ⟨(header_variant_equivalence "X-OSDU-MCP-USER-TOKEN" "tok").1 (by decide),
   (header_variant_equivalence "Osdu-Mcp-Server-Url" "https://u").2.1 (by decide),
   (header_variant_equivalence "OSDU_MCP_DATA_PARTITION" "p1").2.2 (by decide)⟩

end OsduMcp
